import Mathlib

/-!
Shallow embedding of pymixite's grid layout strategies (`mixite/layout.py`)
and grid builder (`mixite/builder.py`), together with proofs of the spec's
claims about them.

Python integers are modelled as `Int`; Python `range(a, b)` as `intRange`;
Python `floor(n / 2.0)` on integer `n` as `Int.fdiv n 2`; Python
`round(n / 4.0)` (round-half-to-even) as `pyRound4`; a function that can
raise as an `Except` value.
-/

namespace Mixite

/-- Modelled from the spec: `CubeCoordinate` from `mixite/coord.py` (not under
src/). Per spec section 3, an immutable pair of integers `gridX`, `gridZ`
(`gridY` derived as `-gridX - gridZ`), with structural equality. -/
structure CubeCoordinate where
  gridX : Int
  gridZ : Int
deriving DecidableEq, Repr

namespace CubeCoordinate

/-- Modelled from the spec: the orientation tag constant on `CubeCoordinate`
in `mixite/coord.py` (not under src/); spec section 3 says the source uses the
string tag "FLAT_TOP". -/
def FLAT_TOP : String := "FLAT_TOP"

/-- Modelled from the spec: the other orientation tag, "POINTY_TOP"
(spec section 3: members FLAT_TOP and POINTY_TOP). -/
def POINTY_TOP : String := "POINTY_TOP"

/-- Derived `gridY` axis, spec section 3: `gridY = -gridX - gridZ`. -/
def gridY (c : CubeCoordinate) : Int := -c.gridX - c.gridZ

end CubeCoordinate

/-- Python `range(a, b)` over integers: the list `a, a+1, ..., b-1`, empty
when `b ≤ a`. -/
def intRange (a b : Int) : List Int :=
  (List.range (b - a).toNat).map (fun (i : ℕ) => a + (i : Int))

/-- Python `round(n / 4.0)` for an integer `n`: round half to even
(banker's rounding), which Python's built-in `round` uses. -/
def pyRound4 (n : Int) : Int :=
  let q := n.fdiv 4
  let r := n.fmod 4
  if r = 0 then q
  else if r = 1 then q
  else if r = 2 then (if q % 2 = 0 then q else q + 1)
  else q + 1

/-- Modelled from the spec: `CoordinateConverter.offset_coords_to_cube_x` from
`mixite/coord.py` (not under src/). Spec section 4.1: the standard
axial-offset conversion, staggering rows for pointy-top and columns for
flat-top; flat-top leaves the column unchanged, pointy-top shifts the column
by `-floor(row/2)`. -/
def offset_coords_to_cube_x (offsetX offsetY : Int) (orientation : String) : Int :=
  if CubeCoordinate.FLAT_TOP = orientation then offsetX
  else offsetX - offsetY.fdiv 2

/-- Modelled from the spec: `CoordinateConverter.offset_coords_to_cube_z` from
`mixite/coord.py` (not under src/). Flat-top shifts the row by
`-floor(col/2)`, pointy-top leaves the row unchanged. -/
def offset_coords_to_cube_z (offsetX offsetY : Int) (orientation : String) : Int :=
  if CubeCoordinate.FLAT_TOP = orientation then offsetY - offsetX.fdiv 2
  else offsetY

namespace RectangleGridLayoutStrategy

/-- Embeds `RectangleGridLayoutStrategy.fetch_grid_coords`, layout.py lines 33-40:
for `y` in `range(height)`, for `x` in `range(width)`, append the offset-to-cube
conversion of `(x, y)`. -/
def fetch_grid_coords (width height : Int) (orientation : String) : List CubeCoordinate :=
  (intRange 0 height).flatMap (fun y =>
    (intRange 0 width).map (fun x =>
      CubeCoordinate.mk (offset_coords_to_cube_x x y orientation)
        (offset_coords_to_cube_z x y orientation)))

/-- Embeds `RectangleGridLayoutStrategy.check_size`, layout.py lines 42-46. -/
def check_size (width height : Int) : Except String Unit :=
  if ¬(width > 0 ∧ height > 0) then
    Except.error ("Attempted to build a grid with invalid size "
      ++ toString width ++ ", " ++ toString height
      ++ ". Rectangle dimensions must be larger than zero.")
  else Except.ok ()

/-- Embeds `RectangleGridLayoutStrategy.get_name`, layout.py lines 48-49. -/
def get_name : String := "RECTANGULAR"

end RectangleGridLayoutStrategy

namespace TriangleGridLayoutStrategy

/-- Embeds `TriangleGridLayoutStrategy.fetch_grid_coords`, layout.py lines 54-62:
for `z` in `range(height)`, with `end_x = height - z`, for `x` in
`range(end_x)`, append `CubeCoordinate(x, z)`. -/
def fetch_grid_coords (width height : Int) (orientation : String) : List CubeCoordinate :=
  (intRange 0 height).flatMap (fun z =>
    (intRange 0 (height - z)).map (fun x => CubeCoordinate.mk x z))

/-- Embeds `TriangleGridLayoutStrategy.check_size`, layout.py lines 64-70: Python
`not (0 < width == height > 0)` is `not (0 < width and width == height and height > 0)`. -/
def check_size (width height : Int) : Except String Unit :=
  if ¬(0 < width ∧ width = height ∧ height > 0) then
    Except.error ("Attempted to build a grid with invalid size "
      ++ toString width ++ ", " ++ toString height
      ++ ". Triangle dimensions must be equal and larger than zero.")
  else Except.ok ()

/-- Embeds `TriangleGridLayoutStrategy.get_name`, layout.py lines 72-73. -/
def get_name : String := "TRIANGULAR"

end TriangleGridLayoutStrategy

namespace TrapezoidGridLayoutStrategy

/-- Embeds `TrapezoidGridLayoutStrategy.fetch_grid_coords`, layout.py lines 78-84:
for `z` in `range(height)`, for `x` in `range(width)`, append
`CubeCoordinate(x, z)`. -/
def fetch_grid_coords (width height : Int) (orientation : String) : List CubeCoordinate :=
  (intRange 0 height).flatMap (fun z =>
    (intRange 0 width).map (fun x => CubeCoordinate.mk x z))

/-- Embeds `TrapezoidGridLayoutStrategy.check_size`, layout.py lines 86-90. -/
def check_size (width height : Int) : Except String Unit :=
  if ¬(width > 0 ∧ height > 0) then
    Except.error ("Attempted to build a grid with invalid size "
      ++ toString width ++ ", " ++ toString height
      ++ ". Trapezoid dimensions must be larger than zero.")
  else Except.ok ()

/-- Embeds `TrapezoidGridLayoutStrategy.get_name`, layout.py lines 92-93. -/
def get_name : String := "TRAPEZOID"

end TrapezoidGridLayoutStrategy

namespace HexagonGridLayoutStrategy

/-- Embeds `HexagonGridLayoutStrategy.fetch_grid_coords`, layout.py lines 98-122:
`grid_size = height`, `hex_radius = floor(grid_size/2.0)`, initial
`start_x = floor(grid_size/2.0)` for flat-top else `round(grid_size/4.0)`,
`min_x = start_x - hex_radius` computed once before the loop; for `y` in
`range(0, grid_size)`, `dist_from_mid = abs(hex_radius - y)`, for `x` in
`range(max(start_x, min_x), max(start_x, min_x) + 2*hex_radius - dist_from_mid + 1)`
append `CubeCoordinate(x, z)` with `z = y - floor(grid_size/4.0)` for
flat-top else `z = y`; `start_x` is decremented after each row, so in row `y`
it equals the initial value minus `y`. -/
def fetch_grid_coords (width height : Int) (orientation : String) : List CubeCoordinate :=
  let grid_size := height
  let hex_radius := grid_size.fdiv 2
  let start_x0 : Int :=
    if CubeCoordinate.FLAT_TOP = orientation then grid_size.fdiv 2
    else pyRound4 grid_size
  let min_x : Int := start_x0 - hex_radius
  (intRange 0 grid_size).flatMap (fun y =>
    let start_x := start_x0 - y
    let dist_from_mid := |hex_radius - y|
    (intRange (max start_x min_x)
        (max start_x min_x + 2 * hex_radius - dist_from_mid + 1)).map (fun x =>
      CubeCoordinate.mk x
        (if CubeCoordinate.FLAT_TOP = orientation then y - grid_size.fdiv 4 else y)))

/-- Embeds `HexagonGridLayoutStrategy.check_size`, layout.py lines 124-131: Python
`height % 2` is floor-mod, modelled by `Int.fmod`. -/
def check_size (width height : Int) : Except String Unit :=
  if ¬(width > 0 ∧ height > 0 ∧ width = height ∧ |height.fmod 2| = 1) then
    Except.error ("Attempted to build a grid with invalid size "
      ++ toString width ++ ", " ++ toString height
      ++ ". Hexagon dimensions must be equal, odd, and larger than zero.")
  else Except.ok ()

/-- Embeds `HexagonGridLayoutStrategy.get_name`, layout.py lines 133-134. -/
def get_name : String := "HEXAGONAL"

end HexagonGridLayoutStrategy

/-- Modelled from the spec: `GridData` from `mixite/hex.py` (not under src/),
spec section 6: a plain immutable record of (orientation, radius, width,
height) constructed once per build. -/
structure GridData where
  orientation : String
  radius : Float
  width : Int
  height : Int

/-- Modelled from the spec: `HexagonImpl` from `mixite/hex.py` (not under
src/), spec section 4.3: one hexagon record carrying its coordinate and a
reference to the shared grid-level metadata. -/
structure HexagonImpl where
  grid_data : GridData
  coord : CubeCoordinate

/-- Modelled from the spec: `HexagonGridImpl` with its
`DefaultHexagonDataStorage` from `mixite/grid.py` and `mixite/storage.py`
(not under src/), spec section 6: an associative storage keyed by coordinate
plus the grid's ordered hexagon list, both starting empty. -/
structure HexagonGridImpl where
  grid_data : GridData
  storage : List (CubeCoordinate × HexagonImpl)
  hexagons : List HexagonImpl

/-- Modelled from the spec: `GridControl` from builder.py lines 10-20, the
container returned by a successful build (the calculator collaborator, a
plain wrapper around the grid, is omitted as an external collaborator per
spec section 1). -/
structure GridControl where
  hex_grid : HexagonGridImpl
  grid_data : GridData

namespace GridControlBuilder

/-- Embeds `GridControlBuilder.build_grid_data`, builder.py lines 57-59. -/
def build_grid_data (orientation : String) (radius : Float) (width height : Int) : GridData :=
  GridData.mk orientation radius width height

/-- Embeds `GridControlBuilder.populate_storage`, builder.py lines 65-70: for
each coordinate, construct a `HexagonImpl`, insert it into storage keyed by
the coordinate, and append it to the hexagon list. -/
def populate_storage (grid : HexagonGridImpl) (grid_data : GridData)
    (coords : List CubeCoordinate) : HexagonGridImpl :=
  coords.foldl (fun g coord =>
    let hexagon := HexagonImpl.mk grid_data coord
    { g with storage := g.storage ++ [(coord, hexagon)],
             hexagons := g.hexagons ++ [hexagon] }) grid

/-- Embeds `GridControlBuilder.build_rectangle`, builder.py lines 25-31: a
raised `GridLayoutException` is modelled as the `Except.error` short-circuit,
so on error no grid is created and no storage is populated. -/
def build_rectangle (orientation : String) (radius : Float) (width height : Int) :
    Except String GridControl :=
  let grid_data := build_grid_data orientation radius width height
  match RectangleGridLayoutStrategy.check_size width height with
  | Except.error msg => Except.error msg
  | Except.ok _ =>
    let grid := HexagonGridImpl.mk grid_data [] []
    let grid := populate_storage grid grid_data
      (RectangleGridLayoutStrategy.fetch_grid_coords width height orientation)
    Except.ok (GridControl.mk grid grid_data)

/-- Embeds `GridControlBuilder.build_hexagon`, builder.py lines 33-39. -/
def build_hexagon (orientation : String) (radius : Float) (width height : Int) :
    Except String GridControl :=
  let grid_data := build_grid_data orientation radius width height
  match HexagonGridLayoutStrategy.check_size width height with
  | Except.error msg => Except.error msg
  | Except.ok _ =>
    let grid := HexagonGridImpl.mk grid_data [] []
    let grid := populate_storage grid grid_data
      (HexagonGridLayoutStrategy.fetch_grid_coords width height orientation)
    Except.ok (GridControl.mk grid grid_data)

/-- Embeds `GridControlBuilder.build_triangle`, builder.py lines 41-47. -/
def build_triangle (orientation : String) (radius : Float) (width height : Int) :
    Except String GridControl :=
  let grid_data := build_grid_data orientation radius width height
  match TriangleGridLayoutStrategy.check_size width height with
  | Except.error msg => Except.error msg
  | Except.ok _ =>
    let grid := HexagonGridImpl.mk grid_data [] []
    let grid := populate_storage grid grid_data
      (TriangleGridLayoutStrategy.fetch_grid_coords width height orientation)
    Except.ok (GridControl.mk grid grid_data)

/-- Embeds `GridControlBuilder.build_trapezoid`, builder.py lines 49-55. -/
def build_trapezoid (orientation : String) (radius : Float) (width height : Int) :
    Except String GridControl :=
  let grid_data := build_grid_data orientation radius width height
  match TrapezoidGridLayoutStrategy.check_size width height with
  | Except.error msg => Except.error msg
  | Except.ok _ =>
    let grid := HexagonGridImpl.mk grid_data [] []
    let grid := populate_storage grid grid_data
      (TrapezoidGridLayoutStrategy.fetch_grid_coords width height orientation)
    Except.ok (GridControl.mk grid grid_data)

end GridControlBuilder

/-- Statement of claim C6's enumeration, following the claim's words: the
coordinates `(x, z)` for `z` in `[0, height)` and `x` in `[0, height - z)`,
row by row. -/
def triangleClaimRows (height : Int) : List (List CubeCoordinate) :=
  (intRange 0 height).map (fun z =>
    (intRange 0 (height - z)).map (fun x => CubeCoordinate.mk x z))

/-- Statement of claim C3's row description read literally: in row `y` the
name `startX` denotes the decremented per-row value `startX0 - y`, so the
lower bound is `max(startX, startX - hexRadius)` with both occurrences taken
at the current value, and the upper bound is that plus
`2*hexRadius - distFromMid`, inclusive. -/
def hexagonClaimCoords (height : Int) (orientation : String) : List CubeCoordinate :=
  let gridSize := height
  let hexRadius := gridSize.fdiv 2
  let startX0 : Int :=
    if CubeCoordinate.FLAT_TOP = orientation then gridSize.fdiv 2
    else pyRound4 gridSize
  (intRange 0 gridSize).flatMap (fun y =>
    let startX := startX0 - y
    let lo := max startX (startX - hexRadius)
    let distFromMid := |hexRadius - y|
    (intRange lo (lo + 2 * hexRadius - distFromMid + 1)).map (fun x =>
      CubeCoordinate.mk x
        (if CubeCoordinate.FLAT_TOP = orientation then y - gridSize.fdiv 4 else y)))

/-- Statement of claim C3 as amended: the lower bound of row `y` is
`max(startX, minX)` where `startX` is the per-row decremented value but
`minX = initialStartX - hexRadius` is computed once from the initial
`startX`, before any row. -/
def hexagonClaimCoordsAmended (height : Int) (orientation : String) : List CubeCoordinate :=
  let gridSize := height
  let hexRadius := gridSize.fdiv 2
  let startX0 : Int :=
    if CubeCoordinate.FLAT_TOP = orientation then gridSize.fdiv 2
    else pyRound4 gridSize
  let minX : Int := startX0 - hexRadius
  (intRange 0 gridSize).flatMap (fun y =>
    let startX := startX0 - y
    let lo := max startX minX
    let distFromMid := |hexRadius - y|
    (intRange lo (lo + 2 * hexRadius - distFromMid + 1)).map (fun x =>
      CubeCoordinate.mk x
        (if CubeCoordinate.FLAT_TOP = orientation then y - gridSize.fdiv 4 else y)))

/-- Row decomposition of the Hexagon enumeration: the list of rows whose
concatenation is `HexagonGridLayoutStrategy.fetch_grid_coords`, used to state
the per-row length claims. -/
def hexagonRows (height : Int) (orientation : String) : List (List CubeCoordinate) :=
  let grid_size := height
  let hex_radius := grid_size.fdiv 2
  let start_x0 : Int :=
    if CubeCoordinate.FLAT_TOP = orientation then grid_size.fdiv 2
    else pyRound4 grid_size
  let min_x : Int := start_x0 - hex_radius
  (intRange 0 grid_size).map (fun y =>
    let start_x := start_x0 - y
    let dist_from_mid := |hex_radius - y|
    (intRange (max start_x min_x)
        (max start_x min_x + 2 * hex_radius - dist_from_mid + 1)).map (fun x =>
      CubeCoordinate.mk x
        (if CubeCoordinate.FLAT_TOP = orientation then y - grid_size.fdiv 4 else y)))

/-- Per-row length list of the Hexagon enumeration, used by claim C7. -/
def hexagonRowLens (height : Int) (orientation : String) : List Nat :=
  (hexagonRows height orientation).map List.length

section Helpers

theorem length_intRange (a b : Int) : (intRange a b).length = (b - a).toNat := by
  simp [intRange]

theorem getElem_intRange (a b : Int) (i : ℕ) (hi : i < (intRange a b).length) :
    (intRange a b)[i] = a + (i : Int) := by
  simp [intRange]

theorem mem_intRange {a b x : Int} : x ∈ intRange a b ↔ a ≤ x ∧ x < b := by
  simp only [intRange, List.mem_map, List.mem_range]
  constructor
  · rintro ⟨i, hi, rfl⟩
    omega
  · intro hx
    exact ⟨(x - a).toNat, by omega, by omega⟩

theorem nodup_intRange (a b : Int) : (intRange a b).Nodup := by
  refine List.Nodup.map ?_ (List.nodup_range _)
  intro i j hij
  have hij2 : a + (i : Int) = a + (j : Int) := hij
  omega

theorem intRange_eq_nil {a b : Int} (hab : b ≤ a) : intRange a b = [] := by
  have hz : (b - a).toNat = 0 := by omega
  simp [intRange, hz]

theorem intRange_shift (a b d : Int) :
    intRange (a + d) (b + d) = (intRange a b).map (fun x => x + d) := by
  have hb : b + d - (a + d) = b - a := by ring
  rw [intRange, intRange, hb, List.map_map]
  apply List.map_congr_left
  intro i _
  simp only [Function.comp_apply]
  ring

theorem flatMap_const_nil {α β : Type} (l : List α) :
    l.flatMap (fun _ => ([] : List β)) = [] := by
  induction l with
  | nil => rfl
  | cons x l ih => simp

theorem sum_map_const_nat {α : Type} (l : List α) (c : ℕ) :
    (l.map (fun _ => c)).sum = c * l.length := by
  induction l with
  | nil => simp
  | cons x l ih =>
    simp only [List.map_cons, List.sum_cons, List.length_cons, ih]
    ring

theorem sum_map_add_const {α : Type} (l : List α) (g : α → ℕ) (c : ℕ) :
    (l.map (fun x => g x + c)).sum = (l.map g).sum + c * l.length := by
  induction l with
  | nil => simp
  | cons x l ih =>
    simp only [List.map_cons, List.sum_cons, List.length_cons, ih]
    ring

theorem sum_range_sub_two_mul (n : ℕ) :
    ((List.range n).map (fun i => n - i)).sum * 2 = n * (n + 1) := by
  induction n with
  | zero => simp
  | succ n ih =>
    rw [List.range_succ, List.map_append, List.sum_append]
    have h1 : (List.range n).map (fun i => n + 1 - i)
        = (List.range n).map (fun i => (n - i) + 1) := by
      apply List.map_congr_left
      intro i hi
      rw [List.mem_range] at hi
      omega
    rw [h1, sum_map_add_const]
    simp only [List.map_cons, List.sum_cons, List.map_nil, List.sum_nil,
      List.length_range]
    have h2 : n + 1 - n + 0 = 1 := by omega
    rw [h2]
    nlinarith [ih]

theorem hexagon_row_sum (r : ℕ) :
    ((List.range (2 * r + 1)).map (fun i => 2 * r + 1 - ((r - i) + (i - r)))).sum
      = 3 * r * r + 3 * r + 1 := by
  induction r with
  | zero => decide
  | succ r ih =>
    rw [show 2 * (r + 1) + 1 = 2 * r + 2 + 1 from by ring, List.range_succ_eq_map,
      List.map_cons, List.sum_cons, List.map_map]
    have hshift : (List.range (2 * r + 2)).map
          ((fun i => 2 * r + 2 + 1 - ((r + 1 - i) + (i - (r + 1)))) ∘ Nat.succ)
        = (List.range (2 * r + 2)).map (fun i => (2 * r + 1 - ((r - i) + (i - r))) + 2) := by
      apply List.map_congr_left
      intro i hi
      rw [List.mem_range] at hi
      simp only [Function.comp_apply]
      omega
    rw [hshift, sum_map_add_const]
    have hlast : ((List.range (2 * r + 2)).map (fun i => 2 * r + 1 - ((r - i) + (i - r)))).sum
        = ((List.range (2 * r + 1)).map (fun i => 2 * r + 1 - ((r - i) + (i - r)))).sum + r := by
      rw [show 2 * r + 2 = (2 * r + 1) + 1 from by ring, List.range_succ, List.map_append,
        List.sum_append]
      simp only [List.map_cons, List.sum_cons, List.map_nil, List.sum_nil]
      omega
    rw [hlast, ih, List.length_range]
    have hhead : 2 * r + 2 + 1 - ((r + 1 - 0) + (0 - (r + 1))) = r + 2 := by omega
    rw [hhead]
    ring

theorem toNat_abs_term (r i : ℕ) :
    (2 * (r : ℤ) - |(r : ℤ) - (i : ℤ)| + 1).toNat = 2 * r + 1 - ((r - i) + (i - r)) := by
  rcases le_total (i : ℤ) (r : ℤ) with hc | hc
  · rw [abs_of_nonneg (by omega)]
    omega
  · rw [abs_of_nonpos (by omega)]
    omega

theorem abs_fmod_two (h : Int) : |h.fmod 2| = h % 2 := by
  rw [Int.fmod_eq_emod _ (by norm_num : (0:ℤ) ≤ 2)]
  exact abs_of_nonneg (Int.emod_nonneg h (by norm_num))

theorem rect_check_isOk (w h : Int) :
    (RectangleGridLayoutStrategy.check_size w h).isOk = true ↔ (w > 0 ∧ h > 0) := by
  rw [RectangleGridLayoutStrategy.check_size]
  by_cases hc : (w > 0 ∧ h > 0)
  · rw [if_neg (not_not_intro hc)]
    exact ⟨fun _ => hc, fun _ => rfl⟩
  · rw [if_pos hc]
    exact ⟨fun hb => absurd hb (by simp [Except.isOk, Except.toBool]),
      fun hr => absurd hr hc⟩

theorem trapezoid_check_isOk (w h : Int) :
    (TrapezoidGridLayoutStrategy.check_size w h).isOk = true ↔ (w > 0 ∧ h > 0) := by
  rw [TrapezoidGridLayoutStrategy.check_size]
  by_cases hc : (w > 0 ∧ h > 0)
  · rw [if_neg (not_not_intro hc)]
    exact ⟨fun _ => hc, fun _ => rfl⟩
  · rw [if_pos hc]
    exact ⟨fun hb => absurd hb (by simp [Except.isOk, Except.toBool]),
      fun hr => absurd hr hc⟩

theorem triangle_check_isOk (w h : Int) :
    (TriangleGridLayoutStrategy.check_size w h).isOk = true ↔ (w > 0 ∧ h > 0 ∧ w = h) := by
  rw [TriangleGridLayoutStrategy.check_size]
  by_cases hc : (w > 0 ∧ h > 0 ∧ w = h)
  · rw [if_neg (not_not_intro ⟨hc.1, hc.2.2, hc.2.1⟩)]
    exact ⟨fun _ => hc, fun _ => rfl⟩
  · rw [if_pos (fun hd => hc ⟨hd.1, hd.2.2, hd.2.1⟩)]
    exact ⟨fun hb => absurd hb (by simp [Except.isOk, Except.toBool]),
      fun hr => absurd hr hc⟩

theorem hexagon_check_isOk (w h : Int) :
    (HexagonGridLayoutStrategy.check_size w h).isOk = true ↔
      (w > 0 ∧ h > 0 ∧ w = h ∧ h % 2 = 1) := by
  rw [HexagonGridLayoutStrategy.check_size]
  simp only [abs_fmod_two]
  by_cases hc : (w > 0 ∧ h > 0 ∧ w = h ∧ h % 2 = 1)
  · rw [if_neg (not_not_intro hc)]
    exact ⟨fun _ => hc, fun _ => rfl⟩
  · rw [if_pos hc]
    exact ⟨fun hb => absurd hb (by simp [Except.isOk, Except.toBool]),
      fun hr => absurd hr hc⟩

end Helpers

/-- Claim C2: each strategy's `check_size` fails exactly when the shape's rule
fails: Rectangle and Trapezoid require width>0 and height>0; Triangle
additionally width==height; Hexagon additionally width==height and height
odd; and in particular `check_size(0,5)` and `check_size(5,0)` fail for every
shape, `check_size(3,4)` fails for Triangle and Hexagon, `check_size(4,4)`
fails for Hexagon, and `check_size(5,5)` succeeds for Triangle and Hexagon. -/
theorem claim_C2 :
    (∀ w h : Int,
      ((RectangleGridLayoutStrategy.check_size w h).isOk = false ↔ ¬(w > 0 ∧ h > 0))
      ∧ ((TrapezoidGridLayoutStrategy.check_size w h).isOk = false ↔ ¬(w > 0 ∧ h > 0))
      ∧ ((TriangleGridLayoutStrategy.check_size w h).isOk = false ↔
          ¬(w > 0 ∧ h > 0 ∧ w = h))
      ∧ ((HexagonGridLayoutStrategy.check_size w h).isOk = false ↔
          ¬(w > 0 ∧ h > 0 ∧ w = h ∧ h % 2 = 1)))
    ∧ (RectangleGridLayoutStrategy.check_size 0 5).isOk = false
    ∧ (TrapezoidGridLayoutStrategy.check_size 0 5).isOk = false
    ∧ (TriangleGridLayoutStrategy.check_size 0 5).isOk = false
    ∧ (HexagonGridLayoutStrategy.check_size 0 5).isOk = false
    ∧ (RectangleGridLayoutStrategy.check_size 5 0).isOk = false
    ∧ (TrapezoidGridLayoutStrategy.check_size 5 0).isOk = false
    ∧ (TriangleGridLayoutStrategy.check_size 5 0).isOk = false
    ∧ (HexagonGridLayoutStrategy.check_size 5 0).isOk = false
    ∧ (TriangleGridLayoutStrategy.check_size 3 4).isOk = false
    ∧ (HexagonGridLayoutStrategy.check_size 3 4).isOk = false
    ∧ (HexagonGridLayoutStrategy.check_size 4 4).isOk = false
    ∧ (TriangleGridLayoutStrategy.check_size 5 5).isOk = true
    ∧ (HexagonGridLayoutStrategy.check_size 5 5).isOk = true := by
  refine ⟨fun w h => ⟨?_, ?_, ?_, ?_⟩, by decide, by decide, by decide, by decide,
    by decide, by decide, by decide, by decide, by decide, by decide, by decide,
    by decide, by decide⟩
  · rw [← rect_check_isOk w h]
    cases hb : (RectangleGridLayoutStrategy.check_size w h).isOk <;> simp
  · rw [← trapezoid_check_isOk w h]
    cases hb : (TrapezoidGridLayoutStrategy.check_size w h).isOk <;> simp
  · rw [← triangle_check_isOk w h]
    cases hb : (TriangleGridLayoutStrategy.check_size w h).isOk <;> simp
  · rw [← hexagon_check_isOk w h]
    cases hb : (HexagonGridLayoutStrategy.check_size w h).isOk <;> simp

/-- Claim C5: when the selected strategy's `check_size` fails, each
shape-specific build operation propagates that same error; in this functional
model the error short-circuits before any grid is created, so no coordinate
is enumerated into storage and no hexagon is appended. -/
theorem claim_C5 (o : String) (radius : Float) (w h : Int) (m : String) :
    (RectangleGridLayoutStrategy.check_size w h = Except.error m →
      GridControlBuilder.build_rectangle o radius w h = Except.error m)
  ∧ (HexagonGridLayoutStrategy.check_size w h = Except.error m →
      GridControlBuilder.build_hexagon o radius w h = Except.error m)
  ∧ (TriangleGridLayoutStrategy.check_size w h = Except.error m →
      GridControlBuilder.build_triangle o radius w h = Except.error m)
  ∧ (TrapezoidGridLayoutStrategy.check_size w h = Except.error m →
      GridControlBuilder.build_trapezoid o radius w h = Except.error m) := by
  refine ⟨fun hc => ?_, fun hc => ?_, fun hc => ?_, fun hc => ?_⟩
  · rw [GridControlBuilder.build_rectangle, hc]
  · rw [GridControlBuilder.build_hexagon, hc]
  · rw [GridControlBuilder.build_triangle, hc]
  · rw [GridControlBuilder.build_trapezoid, hc]

/-- Witness for claim C5: at width 0, height 5 each build fails with the
strategy's own message and produces no grid. -/
theorem claim_C5_witness :
    GridControlBuilder.build_rectangle "FLAT_TOP" 1.0 0 5
      = Except.error ("Attempted to build a grid with invalid size 0, 5."
          ++ " Rectangle dimensions must be larger than zero.")
    ∧ GridControlBuilder.build_hexagon "FLAT_TOP" 1.0 0 5
      = Except.error ("Attempted to build a grid with invalid size 0, 5."
          ++ " Hexagon dimensions must be equal, odd, and larger than zero.")
    ∧ GridControlBuilder.build_triangle "FLAT_TOP" 1.0 0 5
      = Except.error ("Attempted to build a grid with invalid size 0, 5."
          ++ " Triangle dimensions must be equal and larger than zero.")
    ∧ GridControlBuilder.build_trapezoid "FLAT_TOP" 1.0 0 5
      = Except.error ("Attempted to build a grid with invalid size 0, 5."
          ++ " Trapezoid dimensions must be larger than zero.") :=
  ⟨(claim_C5 "FLAT_TOP" 1.0 0 5 _).1 rfl,
   (claim_C5 "FLAT_TOP" 1.0 0 5 _).2.1 rfl,
   (claim_C5 "FLAT_TOP" 1.0 0 5 _).2.2.1 rfl,
   (claim_C5 "FLAT_TOP" 1.0 0 5 _).2.2.2 rfl⟩

/-- Claim C8: the width parameter has no effect on the Triangle and Hexagon
enumerations, and the orientation parameter has no effect on the Triangle and
Trapezoid enumerations. -/
theorem claim_C8 (w1 w2 w h : Int) (o o1 o2 : String) :
    (TriangleGridLayoutStrategy.fetch_grid_coords w1 h o
      = TriangleGridLayoutStrategy.fetch_grid_coords w2 h o)
  ∧ (HexagonGridLayoutStrategy.fetch_grid_coords w1 h o
      = HexagonGridLayoutStrategy.fetch_grid_coords w2 h o)
  ∧ (TriangleGridLayoutStrategy.fetch_grid_coords w h o1
      = TriangleGridLayoutStrategy.fetch_grid_coords w h o2)
  ∧ (TrapezoidGridLayoutStrategy.fetch_grid_coords w h o1
      = TrapezoidGridLayoutStrategy.fetch_grid_coords w h o2) :=
  ⟨rfl, rfl, rfl, rfl⟩

/-- Claim C9: every `fetch_grid_coords` is total; Triangle, Trapezoid and
Hexagon return the empty list whenever height is nonpositive, and Rectangle
returns the empty list whenever width or height is nonpositive. -/
theorem claim_C9 (w h : Int) (o : String) :
    (h ≤ 0 →
      TriangleGridLayoutStrategy.fetch_grid_coords w h o = []
      ∧ TrapezoidGridLayoutStrategy.fetch_grid_coords w h o = []
      ∧ HexagonGridLayoutStrategy.fetch_grid_coords w h o = [])
    ∧ (w ≤ 0 ∨ h ≤ 0 → RectangleGridLayoutStrategy.fetch_grid_coords w h o = []) := by
  constructor
  · intro hh
    have hnil : intRange 0 h = [] := intRange_eq_nil (by omega)
    refine ⟨?_, ?_, ?_⟩
    · rw [TriangleGridLayoutStrategy.fetch_grid_coords, hnil]
      rfl
    · rw [TrapezoidGridLayoutStrategy.fetch_grid_coords, hnil]
      rfl
    · simp only [HexagonGridLayoutStrategy.fetch_grid_coords, hnil]
      rfl
  · intro hwh
    rcases hwh with hw | hh
    · rw [RectangleGridLayoutStrategy.fetch_grid_coords]
      have hnil : intRange 0 w = [] := intRange_eq_nil (by omega)
      simp only [hnil, List.map_nil]
      exact flatMap_const_nil _
    · rw [RectangleGridLayoutStrategy.fetch_grid_coords]
      have hnil : intRange 0 h = [] := intRange_eq_nil (by omega)
      rw [hnil]
      rfl

/-- Length of a flatMap over `intRange 0 h` whose rows have the given
lengths. -/
theorem length_flatMap_intRange_zero (h : Int) (f : Int → List CubeCoordinate) (g : ℕ → ℕ)
    (hfg : ∀ i : ℕ, i < h.toNat → (f ((0 : Int) + (i : Int))).length = g i) :
    ((intRange 0 h).flatMap f).length = ((List.range h.toNat).map g).sum := by
  rw [List.length_flatMap, intRange, Int.sub_zero, List.map_map]
  apply congrArg List.sum
  apply List.map_congr_left
  intro i hi
  rw [List.mem_range] at hi
  exact hfg i hi

/-- Length of the Rectangle enumeration, for any size. -/
theorem rect_fetch_length (w h : Int) (o : String) :
    (RectangleGridLayoutStrategy.fetch_grid_coords w h o).length = w.toNat * h.toNat := by
  rw [RectangleGridLayoutStrategy.fetch_grid_coords]
  refine Eq.trans (length_flatMap_intRange_zero h _ (fun _ => w.toNat) ?_) ?_
  · intro i hi
    simp only [List.length_map, length_intRange]
    omega
  · rw [sum_map_const_nat, List.length_range]

/-- Length of the Trapezoid enumeration, for any size. -/
theorem trapezoid_fetch_length (w h : Int) (o : String) :
    (TrapezoidGridLayoutStrategy.fetch_grid_coords w h o).length = w.toNat * h.toNat := by
  rw [TrapezoidGridLayoutStrategy.fetch_grid_coords]
  refine Eq.trans (length_flatMap_intRange_zero h _ (fun _ => w.toNat) ?_) ?_
  · intro i hi
    simp only [List.length_map, length_intRange]
    omega
  · rw [sum_map_const_nat, List.length_range]

/-- Length of the Triangle enumeration, for any size. -/
theorem triangle_fetch_length (w h : Int) (o : String) :
    (TriangleGridLayoutStrategy.fetch_grid_coords w h o).length
      = h.toNat * (h.toNat + 1) / 2 := by
  rw [TriangleGridLayoutStrategy.fetch_grid_coords]
  refine Eq.trans (length_flatMap_intRange_zero h _ (fun i => h.toNat - i) ?_) ?_
  · intro i hi
    simp only [List.length_map, length_intRange]
    omega
  · have hsum := sum_range_sub_two_mul h.toNat
    generalize hS : ((List.range h.toNat).map (fun i => h.toNat - i)).sum = S at hsum ⊢
    generalize hP : h.toNat * (h.toNat + 1) = P at hsum ⊢
    omega

/-- Cancellation of the shared lower bound in the Hexagon row length. -/
theorem toNat_cancel (M R d : Int) : (M + 2 * R - d + 1 - M).toNat = (2 * R - d + 1).toNat := by
  omega

/-- Length of the Hexagon enumeration at a valid size. -/
theorem hexagon_fetch_length (w h : Int) (o : String) (hpos : 0 < h) (hodd : h % 2 = 1) :
    (HexagonGridLayoutStrategy.fetch_grid_coords w h o).length
      = 3 * (h.fdiv 2).toNat * (h.fdiv 2).toNat + 3 * (h.fdiv 2).toNat + 1 := by
  have hfd2 : h.fdiv 2 = h / 2 := Int.fdiv_eq_ediv _ (by norm_num)
  obtain ⟨r, hr⟩ : ∃ r : ℕ, h = 2 * (r : ℤ) + 1 := ⟨((h - 1) / 2).toNat, by omega⟩
  have hfdr : h.fdiv 2 = (r : ℤ) := by omega
  have hrtoNat : (h.fdiv 2).toNat = r := by omega
  rw [HexagonGridLayoutStrategy.fetch_grid_coords, hrtoNat]
  refine Eq.trans (length_flatMap_intRange_zero h _
    (fun i => 2 * r + 1 - ((r - i) + (i - r))) ?_) ?_
  · intro i hi
    simp only [List.length_map, length_intRange, zero_add, hfdr]
    rw [toNat_cancel]
    exact toNat_abs_term r i
  · rw [show h.toNat = 2 * r + 1 from by omega, hexagon_row_sum]

/-- Claim C1: for every size accepted by the shape's `check_size` and both
orientations, the length of `fetch_grid_coords` is width*height for Rectangle
and Trapezoid, height*(height+1)/2 for Triangle, and
3*hexRadius^2 + 3*hexRadius + 1 with hexRadius = floor(height/2) for
Hexagon. -/
theorem claim_C1 (w h : Int) (o : String) :
    ((RectangleGridLayoutStrategy.check_size w h).isOk = true →
      (RectangleGridLayoutStrategy.fetch_grid_coords w h o).length = w.toNat * h.toNat)
  ∧ ((TrapezoidGridLayoutStrategy.check_size w h).isOk = true →
      (TrapezoidGridLayoutStrategy.fetch_grid_coords w h o).length = w.toNat * h.toNat)
  ∧ ((TriangleGridLayoutStrategy.check_size w h).isOk = true →
      (TriangleGridLayoutStrategy.fetch_grid_coords w h o).length
        = h.toNat * (h.toNat + 1) / 2)
  ∧ ((HexagonGridLayoutStrategy.check_size w h).isOk = true →
      (HexagonGridLayoutStrategy.fetch_grid_coords w h o).length
        = 3 * (h.fdiv 2).toNat * (h.fdiv 2).toNat + 3 * (h.fdiv 2).toNat + 1) := by
  refine ⟨fun _ => rect_fetch_length w h o, fun _ => trapezoid_fetch_length w h o,
    fun _ => triangle_fetch_length w h o, fun hc => ?_⟩
  have hv := (hexagon_check_isOk w h).mp hc
  exact hexagon_fetch_length w h o hv.2.1 hv.2.2.2

/-- Witness for claim C1 at the size (5, 5), valid for all four shapes. -/
theorem claim_C1_witness :
    (RectangleGridLayoutStrategy.check_size 5 5).isOk = true
    ∧ (RectangleGridLayoutStrategy.fetch_grid_coords 5 5 "POINTY_TOP").length
        = (5 : Int).toNat * (5 : Int).toNat
    ∧ (TrapezoidGridLayoutStrategy.fetch_grid_coords 5 5 "POINTY_TOP").length
        = (5 : Int).toNat * (5 : Int).toNat
    ∧ (TriangleGridLayoutStrategy.fetch_grid_coords 5 5 "POINTY_TOP").length
        = (5 : Int).toNat * ((5 : Int).toNat + 1) / 2
    ∧ (HexagonGridLayoutStrategy.fetch_grid_coords 5 5 "POINTY_TOP").length
        = 3 * ((5 : Int).fdiv 2).toNat * ((5 : Int).fdiv 2).toNat
            + 3 * ((5 : Int).fdiv 2).toNat + 1 :=
  ⟨by decide,
   (claim_C1 5 5 "POINTY_TOP").1 (by decide),
   (claim_C1 5 5 "POINTY_TOP").2.1 (by decide),
   (claim_C1 5 5 "POINTY_TOP").2.2.1 (by decide),
   (claim_C1 5 5 "POINTY_TOP").2.2.2 (by decide)⟩

/-- Counterexample to claim C3 as written: at the valid size 5 with the
pointy-top orientation, reading both occurrences of `startX` in
`max(startX, startX - hexRadius)` at the per-row decremented value does not
reproduce the code, whose `min_x` is frozen from the initial `startX` before
the loop (row 3 starts at column -1 in the code but at -2 under the claim's
reading). -/
theorem claim_C3_counterexample :
    ¬(HexagonGridLayoutStrategy.fetch_grid_coords 5 5 CubeCoordinate.POINTY_TOP
        = hexagonClaimCoords 5 CubeCoordinate.POINTY_TOP) := by
  decide

/-- Claim C3 as amended: the Hexagon strategy emits, for each row `y`, the
coordinates `CubeCoordinate(x, z)` for `x` from `max(startX, minX)` through
`max(startX, minX) + 2*hexRadius - distFromMid` inclusive, where `startX`
starts at floor(gridSize/2) for flat-top and round(gridSize/4) otherwise and
is decremented by 1 after each row, but `minX = initialStartX - hexRadius` is
computed once before any row; `distFromMid = abs(hexRadius - y)`, and
`z = y - floor(gridSize/4)` for flat-top, otherwise `z = y`. -/
theorem claim_C3 (w h : Int) (o : String) (hpos : 0 < h) (hwh : w = h)
    (hodd : h % 2 = 1) :
    HexagonGridLayoutStrategy.fetch_grid_coords w h o = hexagonClaimCoordsAmended h o :=
  rfl

/-- Witness for claim C3 (amended) at size 5, pointy-top. -/
theorem claim_C3_witness :
    (0 : Int) < 5 ∧ (5 : Int) % 2 = 1
    ∧ HexagonGridLayoutStrategy.fetch_grid_coords 5 5 CubeCoordinate.POINTY_TOP
        = hexagonClaimCoordsAmended 5 CubeCoordinate.POINTY_TOP :=
  ⟨by decide, by decide,
   claim_C3 5 5 CubeCoordinate.POINTY_TOP (by decide) rfl (by decide)⟩

/-- Claim C6: for every valid triangle size and every orientation, the
Triangle strategy returns exactly the coordinates `(x, z)` for `z` in
`[0, height)` and `x` in `[0, height - z)` in row-major order, the row
lengths strictly decrease as `z` increases, and for height 3 the result is
the six coordinates (0,0),(1,0),(2,0),(0,1),(1,1),(0,2). -/
theorem claim_C6 (w h : Int) (o : String) (hw : 0 < w) (hwh : w = h) :
    TriangleGridLayoutStrategy.fetch_grid_coords w h o = (triangleClaimRows h).flatten
    ∧ ((triangleClaimRows h).map List.length).Pairwise (fun a b => b < a)
    ∧ TriangleGridLayoutStrategy.fetch_grid_coords 3 3 o
        = [CubeCoordinate.mk 0 0, CubeCoordinate.mk 1 0, CubeCoordinate.mk 2 0,
           CubeCoordinate.mk 0 1, CubeCoordinate.mk 1 1, CubeCoordinate.mk 0 2] := by
  refine ⟨rfl, ?_, rfl⟩
  rw [List.pairwise_iff_getElem]
  intro i j hi hj hij
  simp only [triangleClaimRows, List.length_map, length_intRange, List.getElem_map,
    getElem_intRange] at hi hj ⊢
  omega

/-- Witness for claim C6 at size 3, flat-top. -/
theorem claim_C6_witness :
    (0 : Int) < 3
    ∧ TriangleGridLayoutStrategy.fetch_grid_coords 3 3 "FLAT_TOP"
        = (triangleClaimRows 3).flatten
    ∧ TriangleGridLayoutStrategy.fetch_grid_coords 3 3 "FLAT_TOP"
        = [CubeCoordinate.mk 0 0, CubeCoordinate.mk 1 0, CubeCoordinate.mk 2 0,
           CubeCoordinate.mk 0 1, CubeCoordinate.mk 1 1, CubeCoordinate.mk 0 2] :=
  ⟨by decide, (claim_C6 3 3 "FLAT_TOP" (by decide) rfl).1,
   (claim_C6 3 3 "FLAT_TOP" (by decide) rfl).2.2⟩

/-- Nodup of a flatMap whose rows are nodup and pairwise separated by the
row index. -/
theorem nodup_flatMap_of_rows (l : List Int) (f : Int → List CubeCoordinate)
    (hnd : l.Nodup)
    (hrow : ∀ y ∈ l, (f y).Nodup)
    (hsep : ∀ y1 ∈ l, ∀ y2 ∈ l, ∀ c : CubeCoordinate, c ∈ f y1 → c ∈ f y2 → y1 = y2) :
    (l.flatMap f).Nodup := by
  rw [List.nodup_flatMap]
  refine ⟨hrow, ?_⟩
  refine List.Pairwise.imp_of_mem ?_ hnd
  intro a b ha hb hab c hca hcb
  exact hab (hsep a ha b hb c hca hcb)

/-- Uniqueness of the Trapezoid enumeration, for any input. -/
theorem trapezoid_nodup (w h : Int) (o : String) :
    (TrapezoidGridLayoutStrategy.fetch_grid_coords w h o).Nodup := by
  rw [TrapezoidGridLayoutStrategy.fetch_grid_coords]
  refine nodup_flatMap_of_rows _ _ (nodup_intRange 0 h) ?_ ?_
  · intro z _
    refine List.Nodup.map ?_ (nodup_intRange 0 w)
    intro x1 x2 hx
    exact congrArg CubeCoordinate.gridX hx
  · intro z1 _ z2 _ c hc1 hc2
    simp only [List.mem_map] at hc1 hc2
    obtain ⟨x1, _, rfl⟩ := hc1
    obtain ⟨x2, _, h2⟩ := hc2
    exact (congrArg CubeCoordinate.gridZ h2).symm

/-- Uniqueness of the Triangle enumeration, for any input. -/
theorem triangle_nodup (w h : Int) (o : String) :
    (TriangleGridLayoutStrategy.fetch_grid_coords w h o).Nodup := by
  rw [TriangleGridLayoutStrategy.fetch_grid_coords]
  refine nodup_flatMap_of_rows _ _ (nodup_intRange 0 h) ?_ ?_
  · intro z _
    refine List.Nodup.map ?_ (nodup_intRange 0 (h - z))
    intro x1 x2 hx
    exact congrArg CubeCoordinate.gridX hx
  · intro z1 _ z2 _ c hc1 hc2
    simp only [List.mem_map] at hc1 hc2
    obtain ⟨x1, _, rfl⟩ := hc1
    obtain ⟨x2, _, h2⟩ := hc2
    exact (congrArg CubeCoordinate.gridZ h2).symm

/-- Uniqueness of the Hexagon enumeration, for any input. -/
theorem hexagon_nodup (w h : Int) (o : String) :
    (HexagonGridLayoutStrategy.fetch_grid_coords w h o).Nodup := by
  rw [HexagonGridLayoutStrategy.fetch_grid_coords]
  refine nodup_flatMap_of_rows _ _ (nodup_intRange 0 h) ?_ ?_
  · intro y _
    refine List.Nodup.map ?_ (nodup_intRange _ _)
    intro x1 x2 hx
    exact congrArg CubeCoordinate.gridX hx
  · intro y1 _ y2 _ c hc1 hc2
    simp only [List.mem_map] at hc1 hc2
    obtain ⟨x1, _, rfl⟩ := hc1
    obtain ⟨x2, _, h2⟩ := hc2
    have hz := congrArg CubeCoordinate.gridZ h2
    by_cases ho : CubeCoordinate.FLAT_TOP = o
    · simp only [if_pos ho] at hz
      omega
    · simp only [if_neg ho] at hz
      omega

/-- Uniqueness of the Rectangle enumeration, for any input. -/
theorem rect_nodup (w h : Int) (o : String) :
    (RectangleGridLayoutStrategy.fetch_grid_coords w h o).Nodup := by
  rw [RectangleGridLayoutStrategy.fetch_grid_coords]
  refine nodup_flatMap_of_rows _ _ (nodup_intRange 0 h) ?_ ?_
  · intro y _
    refine List.Nodup.map ?_ (nodup_intRange 0 w)
    intro x1 x2 hx
    have hgx := congrArg CubeCoordinate.gridX hx
    simp only [offset_coords_to_cube_x] at hgx
    by_cases ho : CubeCoordinate.FLAT_TOP = o
    · simpa only [if_pos ho] using hgx
    · simp only [if_neg ho] at hgx
      omega
  · intro y1 _ y2 _ c hc1 hc2
    simp only [List.mem_map] at hc1 hc2
    obtain ⟨x1, _, rfl⟩ := hc1
    obtain ⟨x2, _, h2⟩ := hc2
    have hgx := congrArg CubeCoordinate.gridX h2
    have hgz := congrArg CubeCoordinate.gridZ h2
    simp only [offset_coords_to_cube_x, offset_coords_to_cube_z] at hgx hgz
    by_cases ho : CubeCoordinate.FLAT_TOP = o
    · simp only [if_pos ho] at hgx hgz
      obtain rfl : x2 = x1 := hgx
      omega
    · simp only [if_neg ho] at hgx hgz
      omega

/-- Claim C4: for every size accepted by the shape's `check_size` and both
orientations, the sequence returned by `fetch_grid_coords` contains no two
equal coordinates, for each of the four strategies. -/
theorem claim_C4 (w h : Int) (o : String) :
    ((RectangleGridLayoutStrategy.check_size w h).isOk = true →
      (RectangleGridLayoutStrategy.fetch_grid_coords w h o).Nodup)
  ∧ ((TrapezoidGridLayoutStrategy.check_size w h).isOk = true →
      (TrapezoidGridLayoutStrategy.fetch_grid_coords w h o).Nodup)
  ∧ ((TriangleGridLayoutStrategy.check_size w h).isOk = true →
      (TriangleGridLayoutStrategy.fetch_grid_coords w h o).Nodup)
  ∧ ((HexagonGridLayoutStrategy.check_size w h).isOk = true →
      (HexagonGridLayoutStrategy.fetch_grid_coords w h o).Nodup) :=
  ⟨fun _ => rect_nodup w h o, fun _ => trapezoid_nodup w h o,
   fun _ => triangle_nodup w h o, fun _ => hexagon_nodup w h o⟩

/-- Witness for claim C4 at the size (5, 5), valid for all four shapes. -/
theorem claim_C4_witness :
    (RectangleGridLayoutStrategy.check_size 5 5).isOk = true
    ∧ (RectangleGridLayoutStrategy.fetch_grid_coords 5 5 "POINTY_TOP").Nodup
    ∧ (TrapezoidGridLayoutStrategy.fetch_grid_coords 5 5 "POINTY_TOP").Nodup
    ∧ (TriangleGridLayoutStrategy.fetch_grid_coords 5 5 "POINTY_TOP").Nodup
    ∧ (HexagonGridLayoutStrategy.fetch_grid_coords 5 5 "POINTY_TOP").Nodup :=
  ⟨by decide,
   (claim_C4 5 5 "POINTY_TOP").1 (by decide),
   (claim_C4 5 5 "POINTY_TOP").2.1 (by decide),
   (claim_C4 5 5 "POINTY_TOP").2.2.1 (by decide),
   (claim_C4 5 5 "POINTY_TOP").2.2.2 (by decide)⟩

/-- Element formula for the Hexagon per-row length list. -/
theorem hexagonRowLens_getElem (h : Int) (o : String) (y : ℕ) (hy : y < h.toNat) :
    (hexagonRowLens h o)[y]? = some ((2 * h.fdiv 2 - |h.fdiv 2 - (y : Int)| + 1).toNat) := by
  simp only [hexagonRowLens, hexagonRows, intRange, Int.sub_zero, List.map_map]
  rw [List.getElem?_map, List.getElem?_range hy]
  simp [Function.comp, toNat_cancel]

/-- Claim C7: at every valid hexagon size, row `y` of the Hexagon enumeration
has `2*hexRadius - abs(hexRadius - y) + 1` coordinates, the middle row
`y = hexRadius` has the maximum span `gridSize`, rows `y` and
`gridSize-1-y` have equal lengths, and for size 5 the middle row spans 5
columns. -/
theorem claim_C7 (h : Int) (o : String) (hpos : 0 < h) (hodd : h % 2 = 1) :
    HexagonGridLayoutStrategy.fetch_grid_coords h h o = (hexagonRows h o).flatten
    ∧ (∀ y : ℕ, y < h.toNat →
        (hexagonRowLens h o)[y]? = some ((2 * h.fdiv 2 - |h.fdiv 2 - (y : Int)| + 1).toNat))
    ∧ (hexagonRowLens h o)[(h.fdiv 2).toNat]? = some h.toNat
    ∧ (∀ n ∈ hexagonRowLens h o, n ≤ h.toNat)
    ∧ (∀ y : ℕ, y < h.toNat →
        (hexagonRowLens h o)[y]? = (hexagonRowLens h o)[h.toNat - 1 - y]?)
    ∧ (hexagonRowLens 5 o)[2]? = some 5 := by
  have hfd2 : h.fdiv 2 = h / 2 := Int.fdiv_eq_ediv _ (by norm_num)
  have hR : h = 2 * h.fdiv 2 + 1 := by omega
  have hRnn : 0 ≤ h.fdiv 2 := by omega
  refine ⟨rfl, fun y hy => hexagonRowLens_getElem h o y hy, ?_, ?_, ?_, ?_⟩
  · rw [hexagonRowLens_getElem h o _ (by omega)]
    rw [Int.toNat_of_nonneg hRnn, sub_self, abs_zero]
    congr 1
    omega
  · intro n hn
    simp only [hexagonRowLens, hexagonRows, List.mem_map] at hn
    obtain ⟨row, ⟨y, hy, rfl⟩, rfl⟩ := hn
    simp only [List.length_map, length_intRange, toNat_cancel]
    rcases abs_cases (h.fdiv 2 - y) with ⟨he, hs⟩ | ⟨he, hs⟩ <;> rw [he] <;> omega
  · intro y hy
    have hy2 : h.toNat - 1 - y < h.toNat := by omega
    rw [hexagonRowLens_getElem h o y hy, hexagonRowLens_getElem h o _ hy2]
    congr 1
    rcases abs_cases (h.fdiv 2 - (y : Int)) with ⟨e1, s1⟩ | ⟨e1, s1⟩ <;>
      rcases abs_cases (h.fdiv 2 - ((h.toNat - 1 - y : ℕ) : Int)) with ⟨e2, s2⟩ | ⟨e2, s2⟩ <;>
      rw [e1, e2] <;> omega
  · rw [hexagonRowLens_getElem 5 o 2 (by norm_num)]
    decide

/-- Witness for claim C7 at size 5, pointy-top. -/
theorem claim_C7_witness :
    (0 : Int) < 5 ∧ (5 : Int) % 2 = 1
    ∧ (hexagonRowLens 5 "POINTY_TOP")[2]? = some 5
    ∧ (hexagonRowLens 5 "POINTY_TOP")[((5 : Int).fdiv 2).toNat]? = some (5 : Int).toNat :=
  ⟨by decide, by decide,
   (claim_C7 5 "POINTY_TOP" (by decide) (by decide)).2.2.2.2.2,
   (claim_C7 5 "POINTY_TOP" (by decide) (by decide)).2.2.1⟩

/-- Claim C10: for every height, the flat-top Hexagon enumeration equals the
enumeration for any non-flat-top orientation with every coordinate shifted by
`floor(h/2) - round(h/4)` in gridX and `-floor(h/4)` in gridZ, in the same
order. -/
theorem claim_C10 (w h : Int) (o : String) (ho : ¬(CubeCoordinate.FLAT_TOP = o)) :
    HexagonGridLayoutStrategy.fetch_grid_coords w h CubeCoordinate.FLAT_TOP
      = (HexagonGridLayoutStrategy.fetch_grid_coords w h o).map
          (fun c => CubeCoordinate.mk (c.gridX + (h.fdiv 2 - pyRound4 h))
            (c.gridZ - h.fdiv 4)) := by
  have hcf : (CubeCoordinate.FLAT_TOP = CubeCoordinate.FLAT_TOP) = True :=
    eq_true rfl
  have hco : (CubeCoordinate.FLAT_TOP = o) = False := eq_false ho
  simp only [HexagonGridLayoutStrategy.fetch_grid_coords, hcf, hco, if_true, if_false]
  rw [List.map_flatMap, List.flatMap_def, List.flatMap_def]
  apply congrArg List.flatten
  apply List.map_congr_left
  intro y hy
  rw [List.map_map]
  have hM : max (h.fdiv 2 - y) (h.fdiv 2 - h.fdiv 2)
      = max (pyRound4 h - y) (pyRound4 h - h.fdiv 2) + (h.fdiv 2 - pyRound4 h) := by
    rw [← max_add_add_right]
    congr 1 <;> ring
  rw [hM]
  rw [show max (pyRound4 h - y) (pyRound4 h - h.fdiv 2) + (h.fdiv 2 - pyRound4 h)
        + 2 * h.fdiv 2 - |h.fdiv 2 - y| + 1
      = (max (pyRound4 h - y) (pyRound4 h - h.fdiv 2) + 2 * h.fdiv 2 - |h.fdiv 2 - y| + 1)
        + (h.fdiv 2 - pyRound4 h) from by ring]
  rw [intRange_shift, List.map_map]
  apply List.map_congr_left
  intro x _
  rfl

/-- Witness for claim C10 at height 5 against the pointy-top orientation. -/
theorem claim_C10_witness :
    ¬(CubeCoordinate.FLAT_TOP = "POINTY_TOP")
    ∧ HexagonGridLayoutStrategy.fetch_grid_coords 5 5 CubeCoordinate.FLAT_TOP
      = (HexagonGridLayoutStrategy.fetch_grid_coords 5 5 "POINTY_TOP").map
          (fun c => CubeCoordinate.mk (c.gridX + ((5 : Int).fdiv 2 - pyRound4 5))
            (c.gridZ - (5 : Int).fdiv 4)) :=
  ⟨by decide, claim_C10 5 5 "POINTY_TOP" (by decide)⟩

/-- Witness for claim C9 at width -1, height -2. -/
theorem claim_C9_witness :
    ((-2 : Int) ≤ 0
      ∧ TriangleGridLayoutStrategy.fetch_grid_coords (-1) (-2) "FLAT_TOP" = []
      ∧ TrapezoidGridLayoutStrategy.fetch_grid_coords (-1) (-2) "FLAT_TOP" = []
      ∧ HexagonGridLayoutStrategy.fetch_grid_coords (-1) (-2) "FLAT_TOP" = [])
    ∧ ((-1 : Int) ≤ 0
      ∧ RectangleGridLayoutStrategy.fetch_grid_coords (-1) (-2) "FLAT_TOP" = []) :=
  ⟨⟨by decide, (claim_C9 (-1) (-2) "FLAT_TOP").1 (by decide)⟩,
   ⟨by decide, (claim_C9 (-1) (-2) "FLAT_TOP").2 (Or.inl (by decide))⟩⟩

end Mixite
